import Mathlib

/-!
# Utility-bill API test-suite: a shallow embedding

The repository is a Cypress suite (`cypress/support/commands.js` and the
specs under `cypress/e2e/`).  The backend it exercises is not part of the
repository, so every server response is an input of the model: a test is a
function of the responses its requests resolve to, and it passes when none
of its assertions throws.

* JavaScript values are `JsVal`; numbers are `JsNum` (no arithmetic is ever
  performed on them by the suite, only `typeof`, truthiness and `===`).
* The system clock, the random source and the `Date` built-ins are read
  through `World` and `DateImpl`, by explicit state passing.
* `chai` assertions are Boolean checks; a failing assertion, or a property
  read on `null`/`undefined`, aborts the test (`Except`).
-/

set_option autoImplicit false

namespace UtilityBill

/-! ## JavaScript values -/

/-- A JavaScript number.  Finite values are rationals (every double is one);
the suite never computes with them.  The negative zero is identified with
zero: `===`, `typeof`, truthiness and JSON serialisation, the only operations
the suite applies, do not tell them apart. -/
inductive JsNum where
  | nan
  | posInf
  | negInf
  | fin (q : ℚ)
  deriving DecidableEq

namespace JsNum

/-- The comparison `a === b` on numbers: `NaN` differs from itself. -/
def strictEq : JsNum → JsNum → Bool
  | nan, _ => false
  | _, nan => false
  | a, b => decide (a = b)

/-- The conversion `ToBoolean` on numbers: `0` and `NaN` are falsy. -/
def truthy : JsNum → Bool
  | nan => false
  | fin q => decide (q ≠ 0)
  | _ => true

end JsNum

/-- A JavaScript value.  Objects are association lists in property order;
a property that is absent reads as `undefined`. -/
inductive JsVal where
  | undefined
  | null
  | bool (b : Bool)
  | num (n : JsNum)
  | str (s : String)
  | arr (items : List JsVal)
  | obj (fields : List (String × JsVal))

/-- The fields of an object literal. -/
abbrev JsObj := List (String × JsVal)

namespace JsVal

/-- An integer as a JavaScript number value. -/
def ofNat (n : Nat) : JsVal := num (JsNum.fin (n : ℚ))

/-- The conversion `ToBoolean`: `undefined`, `null`, `false`, `0`,
`NaN` and the empty string are falsy, everything else is truthy. -/
def truthy : JsVal → Bool
  | undefined => false
  | null => false
  | bool b => b
  | num n => n.truthy
  | str s => decide (s ≠ "")
  | arr _ => true
  | obj _ => true

/-- The operator `typeof`. -/
def typeof : JsVal → String
  | undefined => "undefined"
  | null => "object"
  | bool _ => "boolean"
  | num _ => "number"
  | str _ => "string"
  | arr _ => "object"
  | obj _ => "object"

/-- The comparison `a === b` between two values that do not share an object
reference.  Every comparison of the suite is between a value parsed from one
response and a value parsed from another response or built locally, so two
objects (or arrays) are never the same reference and compare unequal. -/
def strictEq : JsVal → JsVal → Bool
  | undefined, undefined => true
  | null, null => true
  | bool a, bool b => a == b
  | num a, num b => a.strictEq b
  | str a, str b => a == b
  | _, _ => false

end JsVal

/-- The read `o.name` on an object literal: the value of the property, or
`undefined` when the object has none of that name. -/
def JsObj.get (o : JsObj) (name : String) : JsVal :=
  (o.lookup name).getD JsVal.undefined

/-- Why a test stops: an assertion that does not hold, or a `TypeError`. -/
inductive Failure where
  | assertion (msg : String)
  | typeError (msg : String)
  deriving DecidableEq

/-- The read `v.name`.  It throws a `TypeError` on `undefined` and `null`;
on an object it is the property or `undefined`; on any other value it is
`undefined` (the names the suite reads, `id`, `invoice_id`, `status`,
`error`, are not members of a built-in prototype). -/
def getProp (v : JsVal) (name : String) : Except Failure JsVal :=
  match v with
  | JsVal.undefined => Except.error (Failure.typeError name)
  | JsVal.null => Except.error (Failure.typeError name)
  | JsVal.obj fields => Except.ok (JsObj.get fields name)
  | _ => Except.ok JsVal.undefined

/-! ## The chai assertions the suite uses -/

/-- The test `name in Object(v)` behind chai's `property`: false on
`undefined` and `null`; on an object, whether the property is present; false
on every other value for the names the suite uses (`id`, `invoice_id`,
`status`, `error`, `code`, `message`, `customer_id`, `currency`,
`amount_minor`), none of which is a member of a built-in prototype. -/
def hasProperty (v : JsVal) (name : String) : Bool :=
  match v with
  | JsVal.obj fields => (fields.lookup name).isSome
  | _ => false

/-- Turns a failed check into the exception chai throws. -/
def assertThat (ok : Bool) (msg : String) : Except Failure Unit :=
  if ok then Except.ok () else Except.error (Failure.assertion msg)

/-- Whether a test ran to its end without a failure. -/
def passes {α : Type} (r : Except Failure α) : Bool :=
  match r with
  | Except.ok _ => true
  | Except.error _ => false

/-- The assertion `expect(a).to.eq(b)`: strict equality. -/
def expectEq (a b : JsVal) : Except Failure Unit :=
  assertThat (a.strictEq b) "eq"

/-- The assertion `expect(list).to.include(v)` on an array literal, and
`expect(v).to.be.oneOf(list)`: `list.indexOf(v)` finds `v`, by strict
equality. -/
def expectOneOf (list : List JsVal) (v : JsVal) : Except Failure Unit :=
  assertThat (list.any (fun x => x.strictEq v)) "include"

/-- The assertion `expect(v).to.have.property(name)`. -/
def expectProperty (v : JsVal) (name : String) : Except Failure Unit :=
  assertThat (hasProperty v name) name

/-- The check of `expect(v).to.have.property(name, value)`: the property is
present and strictly equal to `value`. -/
def hasPropertyWith (v : JsVal) (name : String) (value : JsVal) : Bool :=
  match v with
  | JsVal.obj fields =>
    match fields.lookup name with
    | some x => x.strictEq value
    | none => false
  | _ => false

/-- The assertion `expect(v).to.have.property(name, value)`. -/
def expectPropertyWith (v : JsVal) (name : String) (value : JsVal) :
    Except Failure Unit :=
  assertThat (hasPropertyWith v name value) name

/-- Whether `pat` occurs in `s` as a contiguous run (`s.indexOf(pat) !== -1`
on character lists). -/
def containsRun (pat : List Char) : List Char → Bool
  | [] => pat.isEmpty
  | c :: cs => pat.isPrefixOf (c :: cs) || containsRun pat cs

/-- The check of `expect(target).to.include(props)` for an object literal
`props`.  chai dispatches on the type of the target: a string target is
searched for the text of `props` (`"[object Object]"`), an array target is
searched for `props` itself by reference and never holds it, and every other
target must have each property of `props` with a strictly equal value. -/
def includesProps (target : JsVal) (props : JsObj) : Bool :=
  match target with
  | JsVal.str s => containsRun "[object Object]".toList s.toList
  | JsVal.arr _ => false
  | _ => props.all (fun p => hasPropertyWith target p.1 p.2)

/-- The assertion `expect(target).to.include(props)`. -/
def expectInclude (target : JsVal) (props : JsObj) : Except Failure Unit :=
  assertThat (includesProps target props) "include"

/-! ## HTTP exchanges -/

/-- What `cy.request` is called with; `none` is an option left out. -/
structure Request where
  method : String
  url : String
  headers : Option JsObj
  body : JsVal
  failOnStatusCode : Option Bool

/-- What `cy.request` yields: the status code and the parsed body. -/
structure Response where
  status : Nat
  body : JsVal

/-- The status code as the number the assertions compare. -/
def Response.statusVal (r : Response) : JsVal := JsVal.ofNat r.status

/-! ## The boundary-value table of `api_payments.cy.js` -/

/-- One entry of `bvaCases`. -/
structure BvaCase where
  label : String
  amount_minor : Nat
  shouldSucceed : Bool
  deriving DecidableEq

/-- The table `bvaCases`, in source order. -/
def bvaCases : List BvaCase :=
  [ { label := "amount 2 (just before 3) should succeed", amount_minor := 2, shouldSucceed := true },
    { label := "amount 3 should fail", amount_minor := 3, shouldSucceed := false },
    { label := "amount 4 (just after 3) should succeed", amount_minor := 4, shouldSucceed := true },
    { label := "amount 102 (before 103) should succeed", amount_minor := 102, shouldSucceed := true },
    { label := "amount 103 should fail", amount_minor := 103, shouldSucceed := false },
    { label := "amount 104 (after 103) should succeed", amount_minor := 104, shouldSucceed := true },
    { label := "amount 6 (just before 7) should succeed", amount_minor := 6, shouldSucceed := true },
    { label := "amount 7 should fail", amount_minor := 7, shouldSucceed := false },
    { label := "amount 8 (just after 7) should succeed", amount_minor := 8, shouldSucceed := true },
    { label := "amount 106 (before 107) should succeed", amount_minor := 106, shouldSucceed := true },
    { label := "amount 107 should fail", amount_minor := 107, shouldSucceed := false },
    { label := "amount 108 (after 107) should succeed", amount_minor := 108, shouldSucceed := true } ]

/-! ## Clock, random source and the `Date` built-ins -/

/-- The `Date` built-ins the helpers call, on time values (milliseconds
since the epoch).  They belong to the host, not to the repository, and
depend on its time zone, so they are a parameter.  The `RangeError` of
`toISOString` on a time value outside the representable range is not
modelled. -/
structure DateImpl where
  getDate : Int → Int
  setDate : Int → Int → Int
  toISOString : Int → String

/-- What the helpers read from their environment: the successive readings
of the system clock (`Date.now()`, `new Date()`), the successive texts of
`Math.random().toString(36)`, the host's `Date` built-ins, and how many
readings and draws have been consumed. -/
structure World where
  clock : Nat → Int
  random : Nat → String
  date : DateImpl
  clockReads : Nat
  randomDraws : Nat

/-- One reading of the clock. -/
def World.readClock (w : World) : Int × World :=
  (w.clock w.clockReads, { w with clockReads := w.clockReads + 1 })

/-- One draw `Math.random().toString(36)`. -/
def World.drawRandom (w : World) : String × World :=
  (w.random w.randomDraws, { w with randomDraws := w.randomDraws + 1 })

/-- The digit `d` in a radix up to 36: `0`-`9`, then `a`-`z`. -/
def digitChar (d : Nat) : Char :=
  if d < 10 then Char.ofNat (48 + d) else Char.ofNat (87 + d)

/-- The digits of `n` in radix `base`, most significant first, in front of
`acc`; `fuel` bounds the number of digits. -/
def digitsAux (base : Nat) : Nat → Nat → List Char → List Char
  | 0, _, acc => acc
  | fuel + 1, n, acc =>
    if n / base = 0 then digitChar (n % base) :: acc
    else digitsAux base fuel (n / base) (digitChar (n % base) :: acc)

/-- The digits of a natural number in radix `base`. -/
def natDigits (base n : Nat) : List Char := digitsAux base (n + 1) n []

/-- The text `n.toString(36)` of an integer. -/
def toString36 (n : Int) : String :=
  if n < 0 then String.mk ('-' :: natDigits 36 n.natAbs)
  else String.mk (natDigits 36 n.natAbs)

/-- The text `s.substring(start, stop)` for `start ≤ stop`. -/
def substring (s : String) (start stop : Nat) : String :=
  String.mk ((s.toList.drop start).take (stop - start))

/-- The helper `uniqueSuffix`. -/
def uniqueSuffix (w : World) : String × World :=
  let (now, w1) := w.readClock
  let (r, w2) := w1.drawRandom
  (toString36 now ++ substring r 2 8, w2)

/-- The helper `futureIsoDate`, for a whole number of days (the suite
passes 1 and 2); `none` is the omitted argument, which defaults to 1. -/
def futureIsoDate (daysAhead : Option Int) (w : World) : String × World :=
  let days := daysAhead.getD 1
  let (d, w1) := w.readClock
  let d := w.date.setDate d (w.date.getDate d + days)
  (w.date.toISOString d, w1)

/-- The helper `pastIsoDate`, for a whole number of days; `none` is the
omitted argument, which defaults to 1. -/
def pastIsoDate (daysAgo : Option Int) (w : World) : String × World :=
  let days := daysAgo.getD 1
  let (d, w1) := w.readClock
  let d := w.date.setDate d (w.date.getDate d - days)
  (w.date.toISOString d, w1)

/-- The operator `a || b` when `b` has no effect. -/
def jsOr (a b : JsVal) : JsVal := if a.truthy then a else b

/-- The helper `buildInvoicePayload`; `none` is the omitted argument, which
defaults to the empty object.  `futureIsoDate(1)` is only called when the
`due_date_iso` override is falsy. -/
def buildInvoicePayload (overrides : Option JsObj) (w : World) : JsObj × World :=
  let o := overrides.getD []
  let (suffix, w1) := uniqueSuffix w
  let (due, w2) :=
    if (o.get "due_date_iso").truthy then (o.get "due_date_iso", w1)
    else
      let r := futureIsoDate (some 1) w1
      (JsVal.str r.1, r.2)
  ([ ("id", jsOr (o.get "id") (JsVal.str ("inv_" ++ suffix))),
     ("customer_id", jsOr (o.get "customer_id") (JsVal.str ("c_" ++ suffix))),
     ("currency", jsOr (o.get "currency") (JsVal.str "AED")),
     ("amount_minor",
        if (o.get "amount_minor").typeof = "number" then o.get "amount_minor"
        else JsVal.ofNat 1293),
     ("due_date_iso", due),
     ("status", jsOr (o.get "status") (JsVal.str "unpaid")) ], w2)

/-! ### A host in UTC -/

/-- Milliseconds in a day. -/
def msPerDay : Int := 86400000

/-- The civil date (year, month 1-12, day 1-31) of a day number counted
from 1970-01-01, in the proleptic Gregorian calendar. -/
def civilFromDays (day : Int) : Int × Int × Int :=
  let z := day + 719468
  let era := Int.ediv z 146097
  let doe := z - era * 146097
  let yoe := Int.ediv (doe - Int.ediv doe 1460 + Int.ediv doe 36524 - Int.ediv doe 146096) 365
  let doy := doe - (365 * yoe + Int.ediv yoe 4 - Int.ediv yoe 100)
  let mp := Int.ediv (5 * doy + 2) 153
  let d := doy - Int.ediv (153 * mp + 2) 5 + 1
  let m := if mp < 10 then mp + 3 else mp - 9
  let y := yoe + era * 400
  (if m ≤ 2 then y + 1 else y, m, d)

/-- The day number, counted from 1970-01-01, of a civil date. -/
def daysFromCivil (y m d : Int) : Int :=
  let y := if m ≤ 2 then y - 1 else y
  let era := Int.ediv y 400
  let yoe := y - era * 400
  let doy := Int.ediv (153 * (if m > 2 then m - 3 else m + 9) + 2) 5 + d - 1
  let doe := yoe * 365 + Int.ediv yoe 4 - Int.ediv yoe 100 + doy
  era * 146097 + doe - 719468

/-- A natural number in decimal, padded with zeros to `width` digits. -/
def pad (width n : Nat) : String :=
  String.mk (List.replicate (width - (natDigits 10 n).length) '0' ++ natDigits 10 n)

/-- The year of an ISO timestamp: four digits from 0 to 9999, a sign and six
digits otherwise. -/
def isoYear (y : Int) : String :=
  if 0 ≤ y ∧ y ≤ 9999 then pad 4 y.natAbs
  else if y < 0 then "-" ++ pad 6 y.natAbs
  else "+" ++ pad 6 y.natAbs

/-- The `Date` built-ins of a host whose local time zone is UTC. -/
def utcDate : DateImpl where
  getDate t := (civilFromDays (Int.ediv t msPerDay)).2.2
  setDate t dt :=
    let c := civilFromDays (Int.ediv t msPerDay)
    (daysFromCivil c.1 c.2.1 1 + (dt - 1)) * msPerDay + Int.emod t msPerDay
  toISOString t :=
    let c := civilFromDays (Int.ediv t msPerDay)
    let ms := (Int.emod t msPerDay).natAbs
    isoYear c.1 ++ "-" ++ pad 2 c.2.1.natAbs ++ "-" ++ pad 2 c.2.2.natAbs ++ "T"
      ++ pad 2 (ms / 3600000) ++ ":" ++ pad 2 (ms / 60000 % 60) ++ ":"
      ++ pad 2 (ms / 1000 % 60) ++ "." ++ pad 3 (ms % 1000) ++ "Z"

/-- A world on a UTC host whose clock always reads `now` and whose random
source always draws the text `r`. -/
def frozenWorld (now : Int) (r : String) : World where
  clock := fun _ => now
  random := fun _ => r
  date := utcDate
  clockReads := 0
  randomDraws := 0

/-! ## The custom commands of `commands.js` -/

/-- The characters `encodeURIComponent` leaves as they are: ASCII letters
and digits and `- _ . ! ~ * ' ( )`. -/
def isUriUnreserved (c : Char) : Bool :=
  c.isAlphanum || [45, 95, 46, 33, 126, 42, 39, 40, 41].contains c.toNat

/-- The UTF-8 bytes of a character. -/
def utf8Bytes (c : Char) : List Nat :=
  let n := c.toNat
  if n < 128 then [n]
  else if n < 2048 then [192 + n / 64, 128 + n % 64]
  else if n < 65536 then [224 + n / 4096, 128 + n / 64 % 64, 128 + n % 64]
  else [240 + n / 262144, 128 + n / 4096 % 64, 128 + n / 64 % 64, 128 + n % 64]

/-- An upper-case hexadecimal digit. -/
def hexDigit (d : Nat) : Char :=
  if d < 10 then Char.ofNat (48 + d) else Char.ofNat (55 + d)

/-- The escapes `%XX` of a list of bytes. -/
def percentEscape : List Nat → List Char
  | [] => []
  | b :: bs => '%' :: hexDigit (b / 16) :: hexDigit (b % 16) :: percentEscape bs

/-- The built-in `encodeURIComponent` on a list of characters. -/
def encodeChars : List Char → List Char
  | [] => []
  | c :: cs =>
    if isUriUnreserved c then c :: encodeChars cs
    else percentEscape (utf8Bytes c) ++ encodeChars cs

/-- The built-in `encodeURIComponent`.  A `String` is a sequence of Unicode
scalar values, so the `URIError` on a lone surrogate cannot arise. -/
def encodeURIComponent (s : String) : String := String.mk (encodeChars s.toList)

/-- The request `apiCreateInvoice` sends for a payload. -/
def apiCreateInvoiceRequest (payload : JsObj) : Request where
  method := "POST"
  url := "/invoices"
  headers := none
  body := JsVal.obj payload
  failOnStatusCode := none

/-- How `cy.request` resolves: with `failOnStatusCode` left at its default
it fails the test on a status outside 2xx and 3xx. -/
def cyRequest (req : Request) (res : Response) : Except Failure Response :=
  if req.failOnStatusCode = some false then Except.ok res
  else if 200 ≤ res.status ∧ res.status < 400 then Except.ok res
  else Except.error (Failure.assertion "cy.request failed on status code")

/-- One run of a command that sends a request: the request it sent, and
what it yields once the response is in, unless an assertion failed. -/
structure CommandRun where
  sent : Request
  result : Except Failure (JsVal × World)

/-- The command `apiCreateInvoice`, against the response `res` of its
request: it builds the payload from the overrides, posts it, checks the
response against the payload, and yields the body of the response. -/
def apiCreateInvoice (overrides : Option JsObj) (w : World) (res : Response) : CommandRun :=
  let (payload, w1) := buildInvoicePayload overrides w
  let req := apiCreateInvoiceRequest payload
  { sent := req
    result := do
      let res ← cyRequest req res
      expectEq res.statusVal (JsVal.ofNat 201)
      expectInclude res.body
        [ ("id", payload.get "id"),
          ("customer_id", payload.get "customer_id"),
          ("currency", payload.get "currency"),
          ("amount_minor", payload.get "amount_minor"),
          ("status", JsVal.str "unpaid") ]
      return (res.body, w1) }

/-- The request of the command `apiGetInvoice`; the id is a string. -/
def apiGetInvoice (id : String) : Request where
  method := "GET"
  url := "/invoices/" ++ encodeURIComponent id
  headers := none
  body := JsVal.undefined
  failOnStatusCode := some false

/-- The request of the command `apiCreatePaymentAttempt`; `none` is the
omitted `options` argument, which defaults to the empty object. -/
def apiCreatePaymentAttempt (invoiceId : JsVal) (options : Option JsObj) : Request :=
  let options := options.getD []
  let headers : JsObj :=
    if (options.get "idempotencyKey").truthy then
      [("Idempotency-Key", options.get "idempotencyKey")]
    else []
  { method := "POST"
    url := "/payments"
    headers := some headers
    body := JsVal.obj [("invoice_id", invoiceId)]
    failOnStatusCode := some false }

/-- The request of the command `apiConfirmPaymentAttempt`; the attempt id is
a string and `outcome` is any value (`undefined` when left out). -/
def apiConfirmPaymentAttempt (attemptId : String) (outcome : JsVal) : Request :=
  let headers : JsObj :=
    if outcome.truthy then [("X-Mock-Outcome", outcome)] else []
  { method := "POST"
    url := "/payments/" ++ encodeURIComponent attemptId ++ "/confirm"
    headers := some headers
    body := JsVal.str ""
    failOnStatusCode := some false }

/-- A string argument that may be left out: `undefined` when it is. -/
def JsVal.ofOptString : Option String → JsVal
  | none => JsVal.undefined
  | some s => JsVal.str s

/-! ## The tests of `api_payments.cy.js` the claims are about -/

/-- The invoice statuses a failed confirmation may leave. -/
def notPaidStatuses : List JsVal :=
  [JsVal.str "unpaid", JsVal.str "expired", JsVal.str "void"]

/-- Every invoice status. -/
def allStatuses : List JsVal :=
  [JsVal.str "unpaid", JsVal.str "paid", JsVal.str "expired", JsVal.str "void"]

/-- The status codes accepted for a failed confirmation. -/
def failureCodes : List JsVal :=
  [JsVal.ofNat 400, JsVal.ofNat 402, JsVal.ofNat 422]

/-- The test "mocked failure (X-Mock-Outcome: fail) leaves invoice unpaid",
against the responses to its four requests. -/
def mockedFailureTest (w : World) (createRes attemptRes confirmRes invoiceRes : Response) :
    Except Failure Unit := do
  let (invoice, _) ← (apiCreateInvoice (some [("amount_minor", JsVal.ofNat 1293)]) w createRes).result
  let _ ← getProp invoice "id"
  let _attemptId ← getProp attemptRes.body "id"
  expectOneOf failureCodes confirmRes.statusVal
  expectProperty confirmRes.body "error"
  let _ ← getProp invoice "id"
  expectEq invoiceRes.statusVal (JsVal.ofNat 200)
  expectOneOf notPaidStatuses (← getProp invoiceRes.body "status")

/-- The request both `apiCreatePaymentAttempt` calls of the idempotency test
build: the same invoice id and the same key `idempo-<suffix>`, the suffix
being generated in the world `w` the test has reached. -/
def idempotencyKeyRequest (w : World) (invoiceId : JsVal) : Request :=
  apiCreatePaymentAttempt invoiceId
    (some [("idempotencyKey", JsVal.str ("idempo-" ++ (uniqueSuffix w).1))])

/-- The test "Idempotency-Key ensures same payment attempt is reused",
against the responses to its three requests. -/
def idempotencyKeyTest (w : World) (createRes firstRes secondRes : Response) :
    Except Failure Unit := do
  let (invoice, w1) ← (apiCreateInvoice (some [("amount_minor", JsVal.ofNat 2000)]) w createRes).result
  let _key := "idempo-" ++ (uniqueSuffix w1).1
  let _ ← getProp invoice "id"
  expectEq firstRes.statusVal (JsVal.ofNat 201)
  let firstAttempt := firstRes.body
  let _ ← getProp invoice "id"
  expectOneOf [JsVal.ofNat 200, JsVal.ofNat 201] secondRes.statusVal
  let secondAttempt := secondRes.body
  expectEq (← getProp secondAttempt "id") (← getProp firstAttempt "id")
  expectEq (← getProp secondAttempt "invoice_id") (← getProp invoice "id")

/-- The overrides `{ amount_minor }` a boundary-value case creates its
invoice with. -/
def bvaOverrides (c : BvaCase) : JsObj := [("amount_minor", JsVal.ofNat c.amount_minor)]

/-- Step 3 of a boundary-value case: the confirmation, called with the
attempt id alone. -/
def bvaConfirmRequest (attemptId : String) : Request :=
  apiConfirmPaymentAttempt attemptId JsVal.undefined

/-- The body of `bvaCases.forEach`: the test of one case, against the
responses to its four requests. -/
def bvaTest (c : BvaCase) (w : World) (createRes attemptRes confirmRes invoiceRes : Response) :
    Except Failure Unit := do
  let (invoice, _) ← (apiCreateInvoice (some (bvaOverrides c)) w createRes).result
  let _ ← getProp invoice "id"
  expectEq attemptRes.statusVal (JsVal.ofNat 201)
  let attemptId ← getProp attemptRes.body "id"
  if c.shouldSucceed then
    expectEq confirmRes.statusVal (JsVal.ofNat 200)
    expectPropertyWith confirmRes.body "id" attemptId
    expectPropertyWith confirmRes.body "invoice_id" (← getProp invoice "id")
    let _ ← getProp invoice "id"
    expectEq invoiceRes.statusVal (JsVal.ofNat 200)
    expectOneOf allStatuses (← getProp invoiceRes.body "status")
  else
    expectOneOf failureCodes confirmRes.statusVal
    expectProperty confirmRes.body "error"
    expectProperty (← getProp confirmRes.body "error") "code"
    expectProperty (← getProp confirmRes.body "error") "message"
    let _ ← getProp invoice "id"
    expectEq invoiceRes.statusVal (JsVal.ofNat 200)
    expectOneOf notPaidStatuses (← getProp invoiceRes.body "status")

/-! ## What the claims say of a run, and sample runs -/

/-- What a failed confirmation must look like: the confirm response has
status 400, 402 or 422 and a body with an `error` property, and the invoice
read afterwards comes back with status 200 and an invoice status among
`unpaid`, `expired`, `void`, hence not `paid`. -/
def FailureObserved (confirmRes invoiceRes : Response) : Prop :=
  confirmRes.status ∈ [400, 402, 422] ∧
  (∃ fields e, confirmRes.body = JsVal.obj fields ∧ fields.lookup "error" = some e) ∧
  invoiceRes.status = 200 ∧
  ∃ s, getProp invoiceRes.body "status" = Except.ok (JsVal.str s) ∧
    s ∈ ["unpaid", "expired", "void"] ∧ s ≠ "paid"

/-- What the success path of a boundary-value case checks: the attempt was
created with status 201, the confirm response has status 200 and a body
carrying the `id` of the attempt and the `id` of the invoice, and the invoice
read afterwards comes back with status 200 and one of the four invoice
statuses. -/
def SuccessObserved (createRes attemptRes confirmRes invoiceRes : Response) : Prop :=
  attemptRes.status = 201 ∧
  confirmRes.status = 200 ∧
  (∃ attemptId invoiceId fields,
    getProp attemptRes.body "id" = Except.ok attemptId ∧
    getProp createRes.body "id" = Except.ok invoiceId ∧
    confirmRes.body = JsVal.obj fields ∧
    fields.lookup "id" = some attemptId ∧
    fields.lookup "invoice_id" = some invoiceId) ∧
  invoiceRes.status = 200 ∧
  ∃ s, getProp invoiceRes.body "status" = Except.ok (JsVal.str s) ∧
    s ∈ ["unpaid", "paid", "expired", "void"]

/-- How `buildInvoicePayload` fills a defaulted field `name` of the payload
`p` from the overrides `o`: with the override when it is a non-empty string,
with `dflt` when it is absent or the empty string. -/
def FieldDefaulted (o p : JsObj) (name : String) (dflt : JsVal) : Prop :=
  (∀ s, o.get name = JsVal.str s → s ≠ "" → p.get name = JsVal.str s) ∧
  (o.get name = JsVal.undefined ∨ o.get name = JsVal.str "" → p.get name = dflt)

/-- A world whose clock advances by one millisecond at each reading and whose
random source changes from the first draw to the next. -/
def tickingWorld : World where
  clock := fun n => 1700000000000 + n
  random := fun n => if n = 0 then "0.4fzyo82mvyr" else "0.9k2j1x7q0zm"
  date := utcDate
  clockReads := 0
  randomDraws := 0

/-- Two worlds read alike from where they stand: the same `Date` built-ins,
the same clock readings to come and the same random draws to come. -/
def World.ReadsAlike (w₁ w₂ : World) : Prop :=
  w₁.date = w₂.date ∧
  (∀ k, w₁.clock (w₁.clockReads + k) = w₂.clock (w₂.clockReads + k)) ∧
  (∀ k, w₁.random (w₁.randomDraws + k) = w₂.random (w₂.randomDraws + k))

/-- A world for sample runs: a UTC host at 2023-11-14T22:13:20Z. -/
def sampleWorld : World := frozenWorld 1700000000000 "0.4fzyo82mvyr"

/-- An invoice as a server may return it for a payload built in
`sampleWorld`. -/
def sampleInvoice (amount : Nat) (status : String) : JsVal :=
  JsVal.obj
    [ ("id", JsVal.str "inv_loyw3v284fzyo8"),
      ("customer_id", JsVal.str "c_loyw3v284fzyo8"),
      ("currency", JsVal.str "AED"),
      ("amount_minor", JsVal.ofNat amount),
      ("due_date_iso", JsVal.str "2023-11-15T22:13:20.000Z"),
      ("status", JsVal.str status) ]

/-- A payment attempt as a server may return it. -/
def sampleAttempt (status : String) : JsVal :=
  JsVal.obj
    [ ("id", JsVal.str "pay_1"),
      ("invoice_id", JsVal.str "inv_loyw3v284fzyo8"),
      ("status", JsVal.str status) ]

/-- An error body as a server may return it. -/
def sampleError : JsVal :=
  JsVal.obj
    [ ("error", JsVal.obj
        [ ("code", JsVal.str "PAYMENT_FAILED"),
          ("message", JsVal.str "payment failed") ]) ]

/-! ## Lemmas on the assertion layer -/

theorem bind_eq_ok {α β : Type} (x : Except Failure α) (f : α → Except Failure β) (b : β) :
    (x >>= f) = Except.ok b ↔ ∃ a, x = Except.ok a ∧ f a = Except.ok b := by
  cases x <;> simp [bind, Except.bind]

theorem passes_iff {α : Type} (r : Except Failure α) :
    passes r = true ↔ ∃ a, r = Except.ok a := by
  cases r <;> simp [passes]

theorem assertThat_ok (c : Bool) (msg : String) (u : Unit) :
    assertThat c msg = Except.ok u ↔ c = true := by
  cases c <;> simp [assertThat]

theorem JsNum.eq_of_numStrictEq {a b : JsNum} (h : a.strictEq b = true) : a = b := by
  cases a <;> cases b <;> simp_all [JsNum.strictEq]

theorem JsVal.eq_of_valStrictEq {a b : JsVal} (h : a.strictEq b = true) : a = b := by
  cases a <;> cases b <;> simp_all [JsVal.strictEq]
  exact JsNum.eq_of_numStrictEq h

theorem ofNat_strictEq (a b : Nat) :
    (JsVal.ofNat a).strictEq (JsVal.ofNat b) = true ↔ a = b := by
  simp [JsVal.ofNat, JsVal.strictEq, JsNum.strictEq]

theorem expectEq_status (r : Response) (n : Nat) (u : Unit) :
    expectEq r.statusVal (JsVal.ofNat n) = Except.ok u ↔ r.status = n := by
  simp [expectEq, assertThat_ok, Response.statusVal, ofNat_strictEq]

theorem expectEq_ok (a b : JsVal) (u : Unit) (h : expectEq a b = Except.ok u) : a = b :=
  JsVal.eq_of_valStrictEq ((assertThat_ok _ _ _).1 h)

theorem expectOneOf_ok (l : List JsVal) (v : JsVal) (u : Unit)
    (h : expectOneOf l v = Except.ok u) : v ∈ l := by
  simp only [expectOneOf, assertThat_ok, List.any_eq_true] at h
  obtain ⟨x, hx, hv⟩ := h
  exact JsVal.eq_of_valStrictEq hv ▸ hx

theorem expectOneOf_status (r : Response) (l : List Nat) (u : Unit)
    (h : expectOneOf (l.map JsVal.ofNat) r.statusVal = Except.ok u) : r.status ∈ l := by
  simp only [expectOneOf, assertThat_ok, List.any_eq_true, List.mem_map] at h
  obtain ⟨x, ⟨n, hn, rfl⟩, hv⟩ := h
  exact (ofNat_strictEq _ _).1 hv ▸ hn

theorem expectProperty_ok (v : JsVal) (name : String) (u : Unit)
    (h : expectProperty v name = Except.ok u) :
    ∃ fields e, v = JsVal.obj fields ∧ fields.lookup name = some e := by
  simp only [expectProperty, assertThat_ok] at h
  cases v with
  | obj fields =>
    obtain ⟨e, he⟩ := Option.isSome_iff_exists.1 h
    exact ⟨fields, e, rfl, he⟩
  | _ => simp [hasProperty] at h

theorem expectPropertyWith_ok (v : JsVal) (name : String) (value : JsVal) (u : Unit)
    (h : expectPropertyWith v name value = Except.ok u) :
    ∃ fields, v = JsVal.obj fields ∧ fields.lookup name = some value := by
  simp only [expectPropertyWith, assertThat_ok] at h
  cases v <;> simp [hasPropertyWith] at h
  rename_i fields
  cases hl : fields.lookup name with
  | none => simp [hl] at h
  | some x =>
    simp only [hl] at h
    exact ⟨fields, rfl, by rw [hl, JsVal.eq_of_valStrictEq h]⟩

theorem idempo_ne_empty (s : String) : "idempo-" ++ s ≠ "" := by
  intro h
  have hl := congrArg String.length h
  rw [String.length_append] at hl
  have h7 : "idempo-".length = 7 := by decide
  have h0 : "".length = 0 := by decide
  omega

/-! ## Evaluation checks of the built-ins -/

theorem toString36_check :
    toString36 1700000000000 = "loyw3v28" ∧ toString36 0 = "0" ∧ toString36 (-37) = "-11" := by
  decide

theorem toISOString_check :
    utcDate.toISOString 0 = "1970-01-01T00:00:00.000Z" ∧
    utcDate.toISOString 1700000000000 = "2023-11-14T22:13:20.000Z" ∧
    utcDate.toISOString 1709251199999 = "2024-02-29T23:59:59.999Z" ∧
    utcDate.toISOString (-1) = "1969-12-31T23:59:59.999Z" := by
  decide

theorem isoDate_check :
    (futureIsoDate none (frozenWorld 1709251199999 "0.abc")).1 = "2024-03-01T23:59:59.999Z" ∧
    (futureIsoDate (some 2) (frozenWorld 1735603200000 "0.abc")).1 =
      "2025-01-02T00:00:00.000Z" ∧
    (pastIsoDate (some 2) (frozenWorld 1709337600000 "0.abc")).1 = "2024-02-29T00:00:00.000Z" := by
  decide

theorem uniqueSuffix_check :
    (uniqueSuffix (frozenWorld 1700000000000 "0.4fzyo82mvyr")).1 = "loyw3v284fzyo8" ∧
    (uniqueSuffix (frozenWorld 1700000000000 "0")).1 = "loyw3v28" := by
  decide

theorem encodeURIComponent_check :
    encodeURIComponent "inv_1a-b.c" = "inv_1a-b.c" ∧
    encodeURIComponent "a b/ü€?" = "a%20b%2F%C3%BC%E2%82%AC%3F" := by
  decide

theorem cyRequest_ok (req : Request) (res r : Response)
    (h : cyRequest req res = Except.ok r) : r = res := by
  unfold cyRequest at h
  split at h
  · exact (Except.ok.inj h).symm
  · split at h
    · exact (Except.ok.inj h).symm
    · exact absurd h (by simp)

theorem apiCreateInvoice_checks (overrides : Option JsObj) (w w1 : World) (res : Response)
    (invoice : JsVal)
    (h : (apiCreateInvoice overrides w res).result = Except.ok (invoice, w1)) :
    invoice = res.body ∧ res.status = 201 ∧
    includesProps res.body
      [ ("id", (buildInvoicePayload overrides w).1.get "id"),
        ("customer_id", (buildInvoicePayload overrides w).1.get "customer_id"),
        ("currency", (buildInvoicePayload overrides w).1.get "currency"),
        ("amount_minor", (buildInvoicePayload overrides w).1.get "amount_minor"),
        ("status", JsVal.str "unpaid") ] = true := by
  simp only [apiCreateInvoice, bind_eq_ok, pure, Except.pure] at h
  obtain ⟨r, hr, u, hs, u2, hinc, hret⟩ := h
  have hres := cyRequest_ok _ _ _ hr
  subst hres
  have h1 := Except.ok.inj hret
  exact ⟨(congrArg Prod.fst h1).symm, (expectEq_status _ _ _).1 hs,
    (assertThat_ok _ _ _).1 hinc⟩

theorem apiCreateInvoice_ok (overrides : Option JsObj) (w w1 : World) (res : Response)
    (invoice : JsVal)
    (h : (apiCreateInvoice overrides w res).result = Except.ok (invoice, w1)) :
    invoice = res.body ∧ res.status = 201 :=
  ⟨(apiCreateInvoice_checks overrides w w1 res invoice h).1,
    (apiCreateInvoice_checks overrides w w1 res invoice h).2.1⟩

/-! ## The claims -/

/-- C1: every case of `bvaCases` expects failure exactly when the last
decimal digit of `amount_minor` is 3 or 7, and success for every other last
digit. -/
theorem bvaCases_agree_with_rule :
    ∀ c ∈ bvaCases,
      (c.shouldSucceed = false ↔ (c.amount_minor % 10 = 3 ∨ c.amount_minor % 10 = 7)) ∧
      (c.shouldSucceed = true ↔ (c.amount_minor % 10 ≠ 3 ∧ c.amount_minor % 10 ≠ 7)) := by
  decide

/-- The case "amount 103 should fail" is in the table and obeys the rule. -/
theorem bvaCases_agree_with_rule_witness :
    ((false = false ↔ (103 % 10 = 3 ∨ 103 % 10 = 7)) ∧
      (false = true ↔ (103 % 10 ≠ 3 ∧ 103 % 10 ≠ 7))) :=
  bvaCases_agree_with_rule
    { label := "amount 103 should fail", amount_minor := 103, shouldSucceed := false }
    (by decide)

/-- C2: whenever the assertions of the test "Idempotency-Key ensures same
payment attempt is reused" all hold, the first response has status 201, the
second has status 200 or 201, the `id` of the second body equals the `id` of
the first body, and the `invoice_id` of the second body equals the `id` of
the invoice (the body of the create-invoice response). -/
theorem idempotencyKeyTest_sound (w : World) (createRes firstRes secondRes : Response)
    (h : passes (idempotencyKeyTest w createRes firstRes secondRes) = true) :
    firstRes.status = 201 ∧
    (secondRes.status = 200 ∨ secondRes.status = 201) ∧
    (∃ id, getProp secondRes.body "id" = Except.ok id ∧
      getProp firstRes.body "id" = Except.ok id) ∧
    (∃ id, getProp secondRes.body "invoice_id" = Except.ok id ∧
      getProp createRes.body "id" = Except.ok id) ∧
    (∀ w1 invoiceId,
      (idempotencyKeyRequest w1 invoiceId).body = JsVal.obj [("invoice_id", invoiceId)] ∧
      (idempotencyKeyRequest w1 invoiceId).headers =
        some [("Idempotency-Key", JsVal.str ("idempo-" ++ (uniqueSuffix w1).1))]) := by
  obtain ⟨u, h⟩ := (passes_iff _).1 h
  simp only [idempotencyKeyTest, bind_eq_ok] at h
  obtain ⟨⟨invoice, w1⟩, hinv, _, _, _, h1, _, _, _, h2, a, ha, b, hb, _, hab, c, hc, d, hd, hcd⟩ := h
  obtain ⟨rfl, _⟩ := apiCreateInvoice_ok _ _ _ _ _ hinv
  have hs := expectOneOf_status secondRes [200, 201] _ h2
  simp only [List.mem_cons, List.mem_singleton, List.not_mem_nil, or_false] at hs
  refine ⟨(expectEq_status _ _ _).1 h1, hs, ⟨a, ha, ?_⟩, ⟨c, hc, ?_⟩, ?_⟩
  · rw [hb, expectEq_ok _ _ _ hab]
  · rw [hd, expectEq_ok _ _ _ hcd]
  · intro w2 invoiceId
    refine ⟨rfl, ?_⟩
    have hk : (JsVal.str ("idempo-" ++ (uniqueSuffix w2).1)).truthy = true := by
      simp only [JsVal.truthy, decide_eq_true_eq]
      exact idempo_ne_empty _
    simp only [idempotencyKeyRequest, apiCreatePaymentAttempt, Option.getD, JsObj.get,
      List.lookup, beq_self_eq_true, hk, if_true]

/-- A run of the idempotency test in which the server returns the same
attempt twice, the second time with status 200. -/
theorem idempotencyKeyTest_sound_witness :
    (201 : Nat) = 201 ∧
    ((200 : Nat) = 200 ∨ (200 : Nat) = 201) ∧
    (∃ id, getProp (sampleAttempt "pending") "id" = Except.ok id ∧
      getProp (sampleAttempt "pending") "id" = Except.ok id) ∧
    (∃ id, getProp (sampleAttempt "pending") "invoice_id" = Except.ok id ∧
      getProp (sampleInvoice 2000 "unpaid") "id" = Except.ok id) :=
  let h := idempotencyKeyTest_sound sampleWorld
    { status := 201, body := sampleInvoice 2000 "unpaid" }
    { status := 201, body := sampleAttempt "pending" }
    { status := 200, body := sampleAttempt "pending" }
    (by decide)
  ⟨h.1, h.2.1, h.2.2.1, h.2.2.2.1⟩

theorem notPaid_of_mem (v : JsVal) (h : v ∈ notPaidStatuses) :
    ∃ s, v = JsVal.str s ∧ s ∈ ["unpaid", "expired", "void"] ∧ s ≠ "paid" := by
  simp only [notPaidStatuses, List.mem_cons, List.mem_singleton, List.not_mem_nil,
    or_false] at h
  rcases h with rfl | rfl | rfl
  · exact ⟨"unpaid", rfl, by decide, by decide⟩
  · exact ⟨"expired", rfl, by decide, by decide⟩
  · exact ⟨"void", rfl, by decide, by decide⟩

theorem anyStatus_of_mem (v : JsVal) (h : v ∈ allStatuses) :
    ∃ s, v = JsVal.str s ∧ s ∈ ["unpaid", "paid", "expired", "void"] := by
  simp only [allStatuses, List.mem_cons, List.mem_singleton, List.not_mem_nil,
    or_false] at h
  rcases h with rfl | rfl | rfl | rfl
  · exact ⟨"unpaid", rfl, by decide⟩
  · exact ⟨"paid", rfl, by decide⟩
  · exact ⟨"expired", rfl, by decide⟩
  · exact ⟨"void", rfl, by decide⟩

theorem failureCodes_eq : failureCodes = [400, 402, 422].map JsVal.ofNat := rfl

/-- C3: whenever the assertions of the forced-failure test hold, and
whenever those of a boundary-value case that expects failure hold, the
confirm response has status 400, 402 or 422 and an `error` property, the
invoice read afterwards comes back with status 200, and its status is one of
`unpaid`, `expired`, `void`, never `paid`. -/
theorem failed_confirmation_leaves_invoice_unpaid (w : World) (c : BvaCase)
    (createRes attemptRes confirmRes invoiceRes : Response) :
    (passes (mockedFailureTest w createRes attemptRes confirmRes invoiceRes) = true →
      FailureObserved confirmRes invoiceRes) ∧
    (c.shouldSucceed = false →
      passes (bvaTest c w createRes attemptRes confirmRes invoiceRes) = true →
      FailureObserved confirmRes invoiceRes) := by
  constructor
  · intro h
    obtain ⟨u, h⟩ := (passes_iff _).1 h
    simp only [mockedFailureTest, bind_eq_ok] at h
    obtain ⟨⟨invoice, w1⟩, _, _, _, _, _, _, hcode, _, herr, _, _, _, hst, v, hv, hmem⟩ := h
    obtain ⟨s, rfl, hs, hne⟩ := notPaid_of_mem _ (expectOneOf_ok _ _ _ hmem)
    rw [failureCodes_eq] at hcode
    exact ⟨expectOneOf_status _ _ _ hcode, expectProperty_ok _ _ _ herr,
      (expectEq_status _ _ _).1 hst, s, hv, hs, hne⟩
  · intro hc h
    obtain ⟨u, h⟩ := (passes_iff _).1 h
    simp only [bvaTest, bind_eq_ok, hc, Bool.false_eq_true, if_false] at h
    obtain ⟨⟨invoice, w1⟩, _, _, _, _, _, _, _, _, hcode, _, herr, _, _, _, _, _, _, _, _,
      _, _, _, hst, v, hv, hmem⟩ := h
    obtain ⟨s, rfl, hs, hne⟩ := notPaid_of_mem _ (expectOneOf_ok _ _ _ hmem)
    rw [failureCodes_eq] at hcode
    exact ⟨expectOneOf_status _ _ _ hcode, expectProperty_ok _ _ _ herr,
      (expectEq_status _ _ _).1 hst, s, hv, hs, hne⟩

/-- A forced failure answered with 402, and the case "amount 3 should fail"
answered with 402: both tests pass and the invoice is still `unpaid`. -/
theorem failed_confirmation_leaves_invoice_unpaid_witness :
    FailureObserved { status := 402, body := sampleError }
      { status := 200, body := sampleInvoice 1293 "unpaid" } ∧
    FailureObserved { status := 402, body := sampleError }
      { status := 200, body := sampleInvoice 3 "unpaid" } :=
  ⟨(failed_confirmation_leaves_invoice_unpaid sampleWorld
      { label := "amount 3 should fail", amount_minor := 3, shouldSucceed := false }
      { status := 201, body := sampleInvoice 1293 "unpaid" }
      { status := 201, body := sampleAttempt "pending" }
      { status := 402, body := sampleError }
      { status := 200, body := sampleInvoice 1293 "unpaid" }).1 (by decide),
   (failed_confirmation_leaves_invoice_unpaid sampleWorld
      { label := "amount 3 should fail", amount_minor := 3, shouldSucceed := false }
      { status := 201, body := sampleInvoice 3 "unpaid" }
      { status := 201, body := sampleAttempt "pending" }
      { status := 402, body := sampleError }
      { status := 200, body := sampleInvoice 3 "unpaid" }).2 rfl (by decide)⟩

/-- C4, as stated, fails: in the case "amount 4 (just after 3) should
succeed" every assertion holds on a run whose confirm response leaves the
attempt `pending` and whose invoice is still `unpaid`. -/
theorem success_path_does_not_require_paid :
    passes (bvaTest
      { label := "amount 4 (just after 3) should succeed", amount_minor := 4,
        shouldSucceed := true }
      sampleWorld
      { status := 201, body := sampleInvoice 4 "unpaid" }
      { status := 201, body := sampleAttempt "pending" }
      { status := 200, body := sampleAttempt "pending" }
      { status := 200, body := sampleInvoice 4 "unpaid" }) = true ∧
    getProp (sampleAttempt "pending") "status" = Except.ok (JsVal.str "pending") ∧
    getProp (sampleInvoice 4 "unpaid") "status" = Except.ok (JsVal.str "unpaid") ∧
    "pending" ≠ "confirmed" ∧ "unpaid" ≠ "paid" :=
  ⟨by decide, rfl, rfl, by decide, by decide⟩

/-- C4, amended: whenever the success-path assertions of a boundary-value
case hold, the attempt was created with status 201, the confirm response is
200 and carries the `id` of the attempt and the `id` of the invoice, the
invoice read afterwards comes back with status 200, and its status is one of
`unpaid`, `paid`, `expired`, `void`.  Nothing is asserted of the status of
the returned attempt. -/
theorem success_path_observed (w : World) (c : BvaCase)
    (createRes attemptRes confirmRes invoiceRes : Response)
    (hc : c.shouldSucceed = true)
    (h : passes (bvaTest c w createRes attemptRes confirmRes invoiceRes) = true) :
    SuccessObserved createRes attemptRes confirmRes invoiceRes := by
  obtain ⟨u, h⟩ := (passes_iff _).1 h
  simp only [bvaTest, bind_eq_ok, hc, if_true] at h
  obtain ⟨⟨invoice, w1⟩, hinv, _, _, _, hatt, attemptId, hid, _, hconf, _, hp1, invoiceId,
    hinvId, _, hp2, _, _, _, hst, v, hv, hmem⟩ := h
  obtain ⟨rfl, _⟩ := apiCreateInvoice_ok _ _ _ _ _ hinv
  obtain ⟨s, rfl, hs⟩ := anyStatus_of_mem _ (expectOneOf_ok _ _ _ hmem)
  obtain ⟨fields, hbody, hl1⟩ := expectPropertyWith_ok _ _ _ _ hp1
  obtain ⟨fields2, hbody2, hl2⟩ := expectPropertyWith_ok _ _ _ _ hp2
  have hf : fields2 = fields := JsVal.obj.inj (hbody2.symm.trans hbody)
  subst hf
  exact ⟨(expectEq_status _ _ _).1 hatt, (expectEq_status _ _ _).1 hconf,
    ⟨attemptId, invoiceId, fields2, hid, hinvId, hbody, hl1, hl2⟩,
    (expectEq_status _ _ _).1 hst, s, hv, hs⟩

/-- The case "amount 4 (just after 3) should succeed" answered with a
confirmed attempt and a paid invoice. -/
theorem success_path_observed_witness :
    SuccessObserved
      { status := 201, body := sampleInvoice 4 "unpaid" }
      { status := 201, body := sampleAttempt "pending" }
      { status := 200, body := sampleAttempt "confirmed" }
      { status := 200, body := sampleInvoice 4 "paid" } :=
  success_path_observed sampleWorld
    { label := "amount 4 (just after 3) should succeed", amount_minor := 4,
      shouldSucceed := true }
    _ _ _ _ rfl (by decide)

/-- C5: for every attempt id and every outcome that is a string or left
out, `apiConfirmPaymentAttempt` builds a POST to
`/payments/<encodeURIComponent(attemptId)>/confirm`; it carries the header
`X-Mock-Outcome`, equal to the outcome, exactly when the outcome is a
non-empty string, and the empty header object otherwise, in particular when
the outcome is left out, as in the boundary-value confirmations. -/
theorem apiConfirmPaymentAttempt_request (attemptId : String) (outcome : Option String) :
    (apiConfirmPaymentAttempt attemptId (JsVal.ofOptString outcome)).method = "POST" ∧
    (apiConfirmPaymentAttempt attemptId (JsVal.ofOptString outcome)).url =
      "/payments/" ++ encodeURIComponent attemptId ++ "/confirm" ∧
    (∀ v, (apiConfirmPaymentAttempt attemptId (JsVal.ofOptString outcome)).headers =
        some [("X-Mock-Outcome", v)] ↔
      ∃ s, outcome = some s ∧ s ≠ "" ∧ v = JsVal.str s) ∧
    ((apiConfirmPaymentAttempt attemptId (JsVal.ofOptString outcome)).headers = some [] ↔
      ¬ ∃ s, outcome = some s ∧ s ≠ "") ∧
    (apiConfirmPaymentAttempt attemptId JsVal.undefined).headers = some [] ∧
    (bvaConfirmRequest attemptId).headers = some [] := by
  refine ⟨rfl, rfl, ?_, ?_, rfl, rfl⟩
  · intro v
    cases outcome with
    | none => simp [apiConfirmPaymentAttempt, JsVal.ofOptString, JsVal.truthy]
    | some s =>
      by_cases hs : s = ""
      · simp [apiConfirmPaymentAttempt, JsVal.ofOptString, JsVal.truthy, hs]
      · simp only [apiConfirmPaymentAttempt, JsVal.ofOptString, JsVal.truthy, ne_eq, hs,
          not_false_eq_true, decide_True, if_true, Option.some.injEq, List.cons.injEq,
          Prod.mk.injEq, true_and, and_true]
        constructor
        · intro h
          exact ⟨s, rfl, hs, h.symm⟩
        · rintro ⟨t, ht, _, rfl⟩
          rw [ht]
  · cases outcome with
    | none => simp [apiConfirmPaymentAttempt, JsVal.ofOptString, JsVal.truthy]
    | some s =>
      by_cases hs : s = ""
      · simp [apiConfirmPaymentAttempt, JsVal.ofOptString, JsVal.truthy, hs]
      · simp [apiConfirmPaymentAttempt, JsVal.ofOptString, JsVal.truthy, hs]

/-- C6: for every invoice id and options whose `idempotencyKey` is a string
or absent, `apiCreatePaymentAttempt` builds a POST to `/payments` whose body
is exactly `{invoice_id: invoiceId}`; it carries the header
`Idempotency-Key`, equal to the key, exactly when the key is a non-empty
string, and the empty header object otherwise; with no options it carries
the empty header object. -/
theorem apiCreatePaymentAttempt_request (invoiceId : JsVal) (options : Option JsObj)
    (key : Option String)
    (hkey : (options.getD []).get "idempotencyKey" = JsVal.ofOptString key) :
    (apiCreatePaymentAttempt invoiceId options).method = "POST" ∧
    (apiCreatePaymentAttempt invoiceId options).url = "/payments" ∧
    (apiCreatePaymentAttempt invoiceId options).body = JsVal.obj [("invoice_id", invoiceId)] ∧
    (∀ v, (apiCreatePaymentAttempt invoiceId options).headers =
        some [("Idempotency-Key", v)] ↔
      ∃ s, key = some s ∧ s ≠ "" ∧ v = JsVal.str s) ∧
    ((apiCreatePaymentAttempt invoiceId options).headers = some [] ↔
      ¬ ∃ s, key = some s ∧ s ≠ "") ∧
    (apiCreatePaymentAttempt invoiceId none).headers = some [] := by
  refine ⟨rfl, rfl, rfl, ?_, ?_, rfl⟩
  · intro v
    cases key with
    | none => simp [apiCreatePaymentAttempt, hkey, JsVal.ofOptString, JsVal.truthy]
    | some s =>
      by_cases hs : s = ""
      · simp [apiCreatePaymentAttempt, hkey, JsVal.ofOptString, JsVal.truthy, hs]
      · simp only [apiCreatePaymentAttempt, hkey, JsVal.ofOptString, JsVal.truthy, ne_eq, hs,
          not_false_eq_true, decide_True, if_true, Option.some.injEq, List.cons.injEq,
          Prod.mk.injEq, true_and, and_true]
        constructor
        · intro h
          exact ⟨s, rfl, hs, h.symm⟩
        · rintro ⟨t, ht, _, rfl⟩
          rw [ht]
  · cases key with
    | none => simp [apiCreatePaymentAttempt, hkey, JsVal.ofOptString, JsVal.truthy]
    | some s =>
      by_cases hs : s = ""
      · simp [apiCreatePaymentAttempt, hkey, JsVal.ofOptString, JsVal.truthy, hs]
      · simp [apiCreatePaymentAttempt, hkey, JsVal.ofOptString, JsVal.truthy, hs]

/-- The idempotency test's call: the key `idempo-k1` is sent as the header. -/
theorem apiCreatePaymentAttempt_request_witness :
    (apiCreatePaymentAttempt (JsVal.str "inv_1")
        (some [("idempotencyKey", JsVal.str "idempo-k1")])).headers =
      some [("Idempotency-Key", JsVal.str "idempo-k1")] :=
  ((apiCreatePaymentAttempt_request (JsVal.str "inv_1")
      (some [("idempotencyKey", JsVal.str "idempo-k1")]) (some "idempo-k1") rfl).2.2.2.1
    (JsVal.str "idempo-k1")).2 ⟨"idempo-k1", rfl, by decide, rfl⟩

theorem typeof_number (v : JsVal) : v.typeof = "number" ↔ ∃ n, v = JsVal.num n := by
  cases v <;> simp [JsVal.typeof]

theorem payload_amount (overrides : Option JsObj) (w : World) :
    (buildInvoicePayload overrides w).1.get "amount_minor" =
      if ((overrides.getD []).get "amount_minor").typeof = "number"
      then (overrides.getD []).get "amount_minor" else JsVal.ofNat 1293 := by
  simp [buildInvoicePayload, JsObj.get, List.lookup]

theorem includesProps_amount (body a b c d e : JsVal)
    (h : includesProps body
      [("id", a), ("customer_id", b), ("currency", c), ("amount_minor", d), ("status", e)]
        = true) :
    (∃ fields, body = JsVal.obj fields ∧ fields.lookup "amount_minor" = some d) ∨
    (∃ s, body = JsVal.str s ∧ containsRun "[object Object]".toList s.toList = true) := by
  cases body with
  | str s => exact Or.inr ⟨s, rfl, h⟩
  | arr items => exact absurd h (by simp [includesProps])
  | obj fields =>
    simp only [includesProps, List.all_cons, Bool.and_eq_true] at h
    obtain ⟨fields2, hb, hl⟩ :=
      expectPropertyWith_ok _ _ _ () ((assertThat_ok _ _ _).2 h.2.2.2.1)
    exact Or.inl ⟨fields2, hb, hl⟩
  | _ => exact absurd h (by simp [includesProps, hasPropertyWith])

theorem bvaPayload_amount (c : BvaCase) (w : World) :
    (buildInvoicePayload (some (bvaOverrides c)) w).1.get "amount_minor" =
      JsVal.ofNat c.amount_minor := by
  rw [payload_amount]
  simp [bvaOverrides, JsObj.get, List.lookup, JsVal.ofNat, JsVal.typeof]

/-- C7: for every overrides object, the `amount_minor` of the payload
`buildInvoicePayload` returns is the override whenever the override is a
number, 0 included, and 1293 whenever it is absent or not a number.  So in
every boundary-value case the command `apiCreateInvoice` posts to
`/invoices` a payload whose `amount_minor` is exactly the amount of the
case, it succeeds only on a 201 response that echoes that amount (or whose
body is a text holding `[object Object]`, which chai's `include` accepts),
and the test of the case passes only if the command does. -/
theorem buildInvoicePayload_amount (overrides : Option JsObj) (w : World) :
    (∀ n, (overrides.getD []).get "amount_minor" = JsVal.num n →
      (buildInvoicePayload overrides w).1.get "amount_minor" = JsVal.num n) ∧
    ((overrides.getD []).get "amount_minor" = JsVal.ofNat 0 →
      (buildInvoicePayload overrides w).1.get "amount_minor" = JsVal.ofNat 0) ∧
    ((∀ n, (overrides.getD []).get "amount_minor" ≠ JsVal.num n) →
      (buildInvoicePayload overrides w).1.get "amount_minor" = JsVal.ofNat 1293) ∧
    ((overrides.getD []).lookup "amount_minor" = none →
      (buildInvoicePayload overrides w).1.get "amount_minor" = JsVal.ofNat 1293) ∧
    (∀ c ∈ bvaCases, ∀ res : Response,
      (apiCreateInvoice (some (bvaOverrides c)) w res).sent.method = "POST" ∧
      (apiCreateInvoice (some (bvaOverrides c)) w res).sent.url = "/invoices" ∧
      (∃ payload : JsObj,
        (apiCreateInvoice (some (bvaOverrides c)) w res).sent.body = JsVal.obj payload ∧
        payload = (buildInvoicePayload (some (bvaOverrides c)) w).1 ∧
        payload.get "amount_minor" = JsVal.ofNat c.amount_minor) ∧
      (∀ invoice w1,
        (apiCreateInvoice (some (bvaOverrides c)) w res).result = Except.ok (invoice, w1) →
        invoice = res.body ∧ res.status = 201 ∧
        ((∃ fields, res.body = JsVal.obj fields ∧
            fields.lookup "amount_minor" = some (JsVal.ofNat c.amount_minor)) ∨
          (∃ s, res.body = JsVal.str s ∧
            containsRun "[object Object]".toList s.toList = true))) ∧
      (∀ attemptRes confirmRes invoiceRes,
        passes (bvaTest c w res attemptRes confirmRes invoiceRes) = true →
        ∃ w1, (apiCreateInvoice (some (bvaOverrides c)) w res).result =
          Except.ok (res.body, w1))) := by
  have key := payload_amount overrides w
  refine ⟨?_, ?_, ?_, ?_, ?_⟩
  · intro n hn
    rw [key, if_pos ((typeof_number _).2 ⟨n, hn⟩), hn]
  · intro hn
    rw [key, if_pos ((typeof_number _).2 ⟨_, hn⟩), hn]
  · intro hn
    rw [key, if_neg]
    intro h
    obtain ⟨n, hn2⟩ := (typeof_number _).1 h
    exact hn n hn2
  · intro hn
    rw [key, if_neg]
    simp [JsObj.get, hn, JsVal.typeof]
  · intro c _ res
    refine ⟨rfl, rfl, ⟨_, rfl, rfl, bvaPayload_amount c w⟩, ?_, ?_⟩
    · intro invoice w1 h
      obtain ⟨hinv, hst, hinc⟩ := apiCreateInvoice_checks _ _ _ _ _ h
      rw [bvaPayload_amount] at hinc
      exact ⟨hinv, hst, includesProps_amount _ _ _ _ _ _ hinc⟩
    · intro attemptRes confirmRes invoiceRes h
      obtain ⟨u, h⟩ := (passes_iff _).1 h
      simp only [bvaTest, bind_eq_ok] at h
      obtain ⟨⟨invoice, w1⟩, hinv, _⟩ := h
      obtain ⟨rfl, _⟩ := apiCreateInvoice_ok _ _ _ _ _ hinv
      exact ⟨w1, hinv⟩

/-- The overrides `{amount_minor: 0}` and `{amount_minor: "12"}`, no
overrides, and the case "amount 7 should fail": its test passes on a run
whose invoice echoes the amount 7, the payload posted carries 7, and the
response that lets the command succeed holds 7. -/
theorem buildInvoicePayload_amount_witness :
    (buildInvoicePayload (some [("amount_minor", JsVal.ofNat 0)]) sampleWorld).1.get
        "amount_minor" = JsVal.ofNat 0 ∧
    (buildInvoicePayload (some [("amount_minor", JsVal.str "12")]) sampleWorld).1.get
        "amount_minor" = JsVal.ofNat 1293 ∧
    (buildInvoicePayload none sampleWorld).1.get "amount_minor" = JsVal.ofNat 1293 ∧
    (∃ payload : JsObj,
      (apiCreateInvoice (some [("amount_minor", JsVal.ofNat 7)]) sampleWorld
        { status := 201, body := sampleInvoice 7 "unpaid" }).sent.body = JsVal.obj payload ∧
      payload.get "amount_minor" = JsVal.ofNat 7) ∧
    ((∃ fields, sampleInvoice 7 "unpaid" = JsVal.obj fields ∧
        fields.lookup "amount_minor" = some (JsVal.ofNat 7)) ∨
      (∃ s, sampleInvoice 7 "unpaid" = JsVal.str s ∧
        containsRun "[object Object]".toList s.toList = true)) := by
  have h7 := (buildInvoicePayload_amount none sampleWorld).2.2.2.2
    { label := "amount 7 should fail", amount_minor := 7, shouldSucceed := false }
    (by decide) { status := 201, body := sampleInvoice 7 "unpaid" }
  obtain ⟨_, _, ⟨payload, hbody, _, hamount⟩, hecho, htest⟩ := h7
  obtain ⟨w1, hres⟩ := htest
    { status := 201, body := sampleAttempt "pending" }
    { status := 402, body := sampleError }
    { status := 200, body := sampleInvoice 7 "unpaid" } (by decide)
  exact
    ⟨(buildInvoicePayload_amount (some [("amount_minor", JsVal.ofNat 0)]) sampleWorld).2.1 rfl,
     (buildInvoicePayload_amount (some [("amount_minor", JsVal.str "12")]) sampleWorld).2.2.1
       (fun _ h => JsVal.noConfusion (show JsVal.str "12" = JsVal.num _ from h)),
     (buildInvoicePayload_amount none sampleWorld).2.2.2.1 rfl,
     ⟨payload, hbody, hamount⟩,
     (hecho _ w1 hres).2.2⟩

theorem fieldDefaulted_of_jsOr (o p : JsObj) (name : String) (dflt : JsVal)
    (h : p.get name = jsOr (o.get name) dflt) : FieldDefaulted o p name dflt := by
  constructor
  · intro s hs hne
    rw [h, hs]
    simp [jsOr, JsVal.truthy, hne]
  · rintro (hu | he)
    · rw [h, hu]
      simp [jsOr, JsVal.truthy]
    · rw [h, he]
      simp [jsOr, JsVal.truthy]

theorem payload_due (overrides : Option JsObj) (w : World) :
    (buildInvoicePayload overrides w).1.get "due_date_iso" =
      jsOr ((overrides.getD []).get "due_date_iso")
        (JsVal.str (futureIsoDate (some 1) (uniqueSuffix w).2).1) := by
  show (if ((overrides.getD []).get "due_date_iso").truthy
      then ((overrides.getD []).get "due_date_iso", (uniqueSuffix w).2)
      else (JsVal.str (futureIsoDate (some 1) (uniqueSuffix w).2).1,
        (futureIsoDate (some 1) (uniqueSuffix w).2).2)).1 = _
  unfold jsOr
  split <;> rfl

/-- C9: for every overrides object, each of the fields `id`, `customer_id`,
`currency`, `due_date_iso` and `status` of the payload is the override when
the override is a non-empty string, and its default when the override is
absent or the empty string: `'inv_' + s` and `'c_' + s` for the one suffix
`s` that `uniqueSuffix` generated, `'AED'`, the result of
`futureIsoDate(1)`, and `'unpaid'`; the payload has exactly these five
fields and `amount_minor`. -/
theorem buildInvoicePayload_defaults (overrides : Option JsObj) (w : World) :
    FieldDefaulted (overrides.getD []) (buildInvoicePayload overrides w).1 "id"
      (JsVal.str ("inv_" ++ (uniqueSuffix w).1)) ∧
    FieldDefaulted (overrides.getD []) (buildInvoicePayload overrides w).1 "customer_id"
      (JsVal.str ("c_" ++ (uniqueSuffix w).1)) ∧
    FieldDefaulted (overrides.getD []) (buildInvoicePayload overrides w).1 "currency"
      (JsVal.str "AED") ∧
    FieldDefaulted (overrides.getD []) (buildInvoicePayload overrides w).1 "due_date_iso"
      (JsVal.str (futureIsoDate (some 1) (uniqueSuffix w).2).1) ∧
    FieldDefaulted (overrides.getD []) (buildInvoicePayload overrides w).1 "status"
      (JsVal.str "unpaid") ∧
    (buildInvoicePayload overrides w).1.map Prod.fst =
      ["id", "customer_id", "currency", "amount_minor", "due_date_iso", "status"] := by
  refine ⟨?_, ?_, ?_, ?_, ?_, ?_⟩
  · exact fieldDefaulted_of_jsOr _ _ _ _ rfl
  · exact fieldDefaulted_of_jsOr _ _ _ _ rfl
  · exact fieldDefaulted_of_jsOr _ _ _ _ rfl
  · exact fieldDefaulted_of_jsOr _ _ _ _ (payload_due overrides w)
  · exact fieldDefaulted_of_jsOr _ _ _ _ rfl
  · rfl

/-- The duplicate-id test's overrides `{id: "inv_dup_x"}`: the id is kept,
and the customer id and the due date take their defaults. -/
theorem buildInvoicePayload_defaults_witness :
    (buildInvoicePayload (some [("id", JsVal.str "inv_dup_x")]) sampleWorld).1.get "id" =
      JsVal.str "inv_dup_x" ∧
    (buildInvoicePayload (some [("id", JsVal.str "inv_dup_x")]) sampleWorld).1.get
        "customer_id" = JsVal.str ("c_" ++ (uniqueSuffix sampleWorld).1) ∧
    (buildInvoicePayload (some [("id", JsVal.str "inv_dup_x")]) sampleWorld).1.get
        "due_date_iso" =
      JsVal.str (futureIsoDate (some 1) (uniqueSuffix sampleWorld).2).1 :=
  ⟨(buildInvoicePayload_defaults (some [("id", JsVal.str "inv_dup_x")]) sampleWorld).1.1
      "inv_dup_x" rfl (by decide),
   (buildInvoicePayload_defaults (some [("id", JsVal.str "inv_dup_x")]) sampleWorld).2.1.2
      (Or.inl rfl),
   (buildInvoicePayload_defaults (some [("id", JsVal.str "inv_dup_x")])
      sampleWorld).2.2.2.1.2 (Or.inl rfl)⟩

/-- C8, as stated, fails: in a world whose clock ticks, each of the four
helpers called twice in a row with the same argument returns two different
results. -/
theorem helpers_not_pure :
    (uniqueSuffix tickingWorld).1 = "loyw3v284fzyo8" ∧
    (uniqueSuffix (uniqueSuffix tickingWorld).2).1 = "loyw3v299k2j1x" ∧
    (uniqueSuffix tickingWorld).1 ≠ (uniqueSuffix (uniqueSuffix tickingWorld).2).1 ∧
    (futureIsoDate (some 1) tickingWorld).1 ≠
      (futureIsoDate (some 1) (futureIsoDate (some 1) tickingWorld).2).1 ∧
    (pastIsoDate (some 1) tickingWorld).1 ≠
      (pastIsoDate (some 1) (pastIsoDate (some 1) tickingWorld).2).1 ∧
    (buildInvoicePayload none tickingWorld).1 ≠
      (buildInvoicePayload none (buildInvoicePayload none tickingWorld).2).1 := by
  refine ⟨by decide, by decide, by decide, by decide, by decide, ?_⟩
  intro h
  have h2 := congrArg (fun p => (p.get "id").strictEq (JsVal.str "inv_loyw3v284fzyo8")) h
  revert h2
  decide

theorem uniqueSuffix_alike (w₁ w₂ : World) (h : w₁.ReadsAlike w₂) :
    (uniqueSuffix w₁).1 = (uniqueSuffix w₂).1 ∧
    (uniqueSuffix w₁).2.ReadsAlike (uniqueSuffix w₂).2 := by
  obtain ⟨hd, hc, hr⟩ := h
  have hc0 := hc 0
  have hr0 := hr 0
  simp only [Nat.add_zero] at hc0 hr0
  refine ⟨?_, hd, ?_, ?_⟩
  · simp only [uniqueSuffix, World.readClock, World.drawRandom, hc0, hr0]
  · intro k
    have := hc (1 + k)
    simpa only [uniqueSuffix, World.readClock, World.drawRandom, Nat.add_assoc] using this
  · intro k
    have := hr (1 + k)
    simpa only [uniqueSuffix, World.readClock, World.drawRandom, Nat.add_assoc] using this

theorem futureIsoDate_alike (d : Option Int) (w₁ w₂ : World) (h : w₁.ReadsAlike w₂) :
    (futureIsoDate d w₁).1 = (futureIsoDate d w₂).1 := by
  obtain ⟨hd, hc, _⟩ := h
  have hc0 := hc 0
  simp only [Nat.add_zero] at hc0
  simp only [futureIsoDate, World.readClock, hc0, hd]

theorem pastIsoDate_alike (d : Option Int) (w₁ w₂ : World) (h : w₁.ReadsAlike w₂) :
    (pastIsoDate d w₁).1 = (pastIsoDate d w₂).1 := by
  obtain ⟨hd, hc, _⟩ := h
  have hc0 := hc 0
  simp only [Nat.add_zero] at hc0
  simp only [pastIsoDate, World.readClock, hc0, hd]

theorem buildInvoicePayload_eq (o : Option JsObj) (w : World) :
    (buildInvoicePayload o w).1 =
      [ ("id", jsOr ((o.getD []).get "id") (JsVal.str ("inv_" ++ (uniqueSuffix w).1))),
        ("customer_id",
          jsOr ((o.getD []).get "customer_id") (JsVal.str ("c_" ++ (uniqueSuffix w).1))),
        ("currency", jsOr ((o.getD []).get "currency") (JsVal.str "AED")),
        ("amount_minor",
          if ((o.getD []).get "amount_minor").typeof = "number"
          then (o.getD []).get "amount_minor" else JsVal.ofNat 1293),
        ("due_date_iso",
          jsOr ((o.getD []).get "due_date_iso")
            (JsVal.str (futureIsoDate (some 1) (uniqueSuffix w).2).1)),
        ("status", jsOr ((o.getD []).get "status") (JsVal.str "unpaid")) ] := by
  have hdue : (if ((o.getD []).get "due_date_iso").truthy
      then ((o.getD []).get "due_date_iso", (uniqueSuffix w).2)
      else (JsVal.str (futureIsoDate (some 1) (uniqueSuffix w).2).1,
        (futureIsoDate (some 1) (uniqueSuffix w).2).2)).1 =
      jsOr ((o.getD []).get "due_date_iso")
        (JsVal.str (futureIsoDate (some 1) (uniqueSuffix w).2).1) := by
    unfold jsOr
    split <;> rfl
  rw [← hdue]
  rfl

/-- C8, amended: the helpers are functions of their argument and of what
they read from the clock and the random source.  For every argument, two
calls with the same argument return the same result whenever they are made
in worlds with the same `Date` built-ins, the same clock readings and the
same random draws. -/
theorem helpers_deterministic (w₁ w₂ : World) (h : w₁.ReadsAlike w₂) :
    (uniqueSuffix w₁).1 = (uniqueSuffix w₂).1 ∧
    (∀ d, (futureIsoDate d w₁).1 = (futureIsoDate d w₂).1) ∧
    (∀ d, (pastIsoDate d w₁).1 = (pastIsoDate d w₂).1) ∧
    (∀ o, (buildInvoicePayload o w₁).1 = (buildInvoicePayload o w₂).1) := by
  refine ⟨(uniqueSuffix_alike w₁ w₂ h).1, fun d => futureIsoDate_alike d w₁ w₂ h,
    fun d => pastIsoDate_alike d w₁ w₂ h, ?_⟩
  intro o
  obtain ⟨hs, hw⟩ := uniqueSuffix_alike w₁ w₂ h
  rw [buildInvoicePayload_eq, buildInvoicePayload_eq, hs,
    futureIsoDate_alike (some 1) _ _ hw]

/-- With the clock and the random source frozen, a second call of each
helper returns what the first returned. -/
theorem helpers_deterministic_witness :
    (uniqueSuffix sampleWorld).1 = (uniqueSuffix (uniqueSuffix sampleWorld).2).1 ∧
    (∀ d, (futureIsoDate d sampleWorld).1 =
      (futureIsoDate d (uniqueSuffix sampleWorld).2).1) ∧
    (∀ d, (pastIsoDate d sampleWorld).1 = (pastIsoDate d (uniqueSuffix sampleWorld).2).1) ∧
    (∀ o, (buildInvoicePayload o sampleWorld).1 =
      (buildInvoicePayload o (uniqueSuffix sampleWorld).2).1) :=
  helpers_deterministic sampleWorld (uniqueSuffix sampleWorld).2
    ⟨rfl, fun _ => rfl, fun _ => rfl⟩

end UtilityBill
